import Mathlib

/-!
A shallow embedding of the subscription lifecycle engine of the
`twitch-webhooks` library (sources: `src/webhooks.ts`, `src/persistence.ts`,
`src/scheduling.ts`, `src/errors.ts`, `src/config.ts`, `src/util.ts`),
together with theorems settling the frozen claims about it.

Modelling conventions:
* JavaScript strings are Lean `String`; a `Map<string, T>` is an association
  list `List (String × T)` whose element order is the Map insertion order.
* `Date` values and `Date.now()` are epoch milliseconds (`Int`);
  an absent (`undefined`) date field is `none`.  A handler body that contains
  no intervening `await` between two clock reads is modelled with a single
  instant `now`.
* JavaScript truthiness on optional strings (`undefined` and `""` are falsy)
  and on optional numbers (`undefined` and `0` are falsy) is made explicit
  via `jsTruthyStr` / `jsOrString` / `jsOrInt`.
* HMAC-SHA256 is an external crypto primitive; definitions that derive
  secrets take it as an explicit function parameter `hmac`.
* Asynchronous functions that can reject are modelled with `Except`;
  a thrown runtime `TypeError` is modelled by a dedicated error value.
-/

namespace TwitchWebhooks

/-! ## JavaScript primitives -/

/-- Truthiness of a JS value that is either a string or `undefined`/`null`:
`undefined`, `null` and the empty string are falsy. -/
def jsTruthyStr : Option String → Bool
  | none => false
  | some s => s ≠ ""

/-- The JS expression `x || d` for an optional string `x`. -/
def jsOrString (x : Option String) (d : String) : String :=
  match x with
  | some s => if s = "" then d else s
  | none => d

/-- The JS expression `x || d` for an optional integer `x` (`0` is falsy). -/
def jsOrInt (x : Option Int) (d : Int) : Int :=
  match x with
  | some n => if n = 0 then d else n
  | none => d

/-- `if (x)` for an optional field used as `x ? x : d` with object fields:
keep the value only when truthy. -/
def truthyField (x : Option String) : Option String :=
  if jsTruthyStr x then x else none

/-- Numeric value of a list of decimal digit characters. -/
def digitsToNat (ds : List Char) : Nat :=
  ds.foldl (fun n c => n * 10 + (c.toNat - 48)) 0

/-- JS `parseInt(s)` (radix 10): skip leading whitespace, optional sign,
then the longest run of leading decimal digits; `none` models `NaN`
(no digits found). -/
def parseIntJS (s : String) : Option Int :=
  let cs := s.data.dropWhile (fun c => c = ' ' || c = '\t' || c = '\n' || c = '\r')
  let signAndRest : Int × List Char :=
    match cs with
    | '-' :: r => (-1, r)
    | '+' :: r => (1, r)
    | r => (1, r)
  let digits := signAndRest.2.takeWhile Char.isDigit
  if digits.isEmpty then none
  else some (signAndRest.1 * (digitsToNat digits : Int))

/-- Characters left unescaped by JS `encodeURIComponent`:
`A-Z a-z 0-9 - _ . ! ~ * ' ( )`. -/
def isUnescapedURIChar (c : Char) : Bool :=
  c.isAlpha || c.isDigit || c = '-' || c = '_' || c = '.' || c = '!' ||
    c = '~' || c = '*' || c = '\'' || c = '(' || c = ')'

/-- Uppercase hexadecimal digit for `n < 16`. -/
def hexDigitChar (n : Nat) : Char :=
  if n < 10 then Char.ofNat (48 + n) else Char.ofNat (55 + n)

/-- Percent-encoding of one byte, e.g. `37 ↦ "%25"`. -/
def percentEncodeByte (b : Nat) : String :=
  String.mk ['%', hexDigitChar (b / 16), hexDigitChar (b % 16)]

/-- UTF-8 bytes of a code point. -/
def utf8BytesOfChar (c : Char) : List Nat :=
  let n := c.toNat
  if n < 0x80 then [n]
  else if n < 0x800 then [0xC0 + n / 64, 0x80 + n % 64]
  else if n < 0x10000 then [0xE0 + n / 4096, 0x80 + (n / 64) % 64, 0x80 + n % 64]
  else [0xF0 + n / 262144, 0x80 + (n / 4096) % 64, 0x80 + (n / 64) % 64, 0x80 + n % 64]

/-- JS `encodeURIComponent`. -/
def encodeURIComponent (s : String) : String :=
  s.data.foldl
    (fun acc c =>
      if isUnescapedURIChar c then acc.push c
      else acc ++ String.join ((utf8BytesOfChar c).map percentEncodeByte))
    ""

/-! ## Association-list model of a JS `Map` -/

/-- `Map.set`: replace the entry with the given key in place, or append. -/
def mapSet {β : Type} : List (String × β) → String → β → List (String × β)
  | [], k, v => [(k, v)]
  | p :: t, k, v => if p.1 = k then (k, v) :: t else p :: mapSet t k v

/-- `Map.delete`: remove the (unique) entry with the given key. -/
def mapDelete {β : Type} : List (String × β) → String → List (String × β)
  | [], _ => []
  | p :: t, k => if p.1 = k then t else p :: mapDelete t k

/-! ## Identity codec (`src/config.ts`, `src/persistence.ts`) -/

/-- The `WebhookType` enum. -/
inductive WebhookType where
  | userFollows
  | streamChanged
  | userChanged
  | extensionTransactionCreated
  | moderatorChange
  | channelBanChange
  | subscription
deriving DecidableEq

/-- The `WebhookTypeEndpoint` map. -/
def webhookTypeEndpoint : WebhookType → String
  | .userFollows => "follows"
  | .streamChanged => "stream_changed"
  | .userChanged => "user_changed"
  | .extensionTransactionCreated => "extension_transaction_created"
  | .moderatorChange => "moderator_change"
  | .channelBanChange => "channel_ban_change"
  | .subscription => "subscription"

/-- The `WebhookTypeTopic` map. -/
def webhookTypeTopic : WebhookType → String
  | .userFollows => "https://api.twitch.tv/helix/users/follows"
  | .streamChanged => "https://api.twitch.tv/helix/streams"
  | .userChanged => "https://api.twitch.tv/helix/users"
  | .extensionTransactionCreated => "https://api.twitch.tv/helix/extensions/transactions"
  | .moderatorChange => "https://api.twitch.tv/helix/moderation/moderators/events"
  | .channelBanChange => "https://api.twitch.tv/helix/moderation/banned/events"
  | .subscription => "https://api.twitch.tv/helix/subscriptions/events"

/-- One iteration of the loop in `computeTopicParamString`: state is
`(isFirst, topicParams)`. The loop reads `params.get(param_name)`;
the name always comes from the key set, so the lookup succeeds, and the
`getD` default is the JS string coercion of `undefined`. -/
def paramStep (params : List (String × String)) (st : Bool × String) (name : String) :
    Bool × String :=
  (false,
    st.2 ++ (if st.1 then "?" else "&") ++ name ++ "=" ++
      encodeURIComponent ((params.lookup name).getD "undefined"))

/-- `computeTopicParamString` (src/persistence.ts): sort the key set, then
join `?k1=v1&k2=v2...` with URL-encoded values. -/
def computeTopicParamString (params : List (String × String)) : String :=
  let sortedParams := (params.map Prod.fst).mergeSort
  (sortedParams.foldl (paramStep params) (true, "")).2

/-- `WebhookOptions` (src/config.ts). -/
structure WebhookOptions where
  secret : Option String := none
  leaseSeconds : Option Int := none
deriving DecidableEq

/-- `WebhookPersistenceObject` (src/persistence.ts); timestamps are epoch ms.
An Invalid Date (`NaN` time) is collapsed to `none`; no theorem in this file
relies on that case. -/
structure WebhookPersistenceObject where
  id : String
  type : WebhookType
  href : String
  subscribed : Bool
  subscriptionStart : Option Int := none
  subscriptionEnd : Option Int := none
  secret : String
  leaseSeconds : Int
deriving DecidableEq

/-- `createWebhookPersistenceObject` (src/persistence.ts). `hmac key msg`
models `crypto.createHmac("sha256", key).update(msg).digest("hex")`. -/
def createWebhookPersistenceObject (hmac : String → String → String)
    (managerSecret : String) (type : WebhookType)
    (params : List (String × String)) (options : WebhookOptions) :
    WebhookPersistenceObject :=
  let paramString := computeTopicParamString params
  let secret := jsOrString options.secret managerSecret
  let href := webhookTypeTopic type ++ paramString
  let hashedSecret := hmac secret href
  { id := webhookTypeEndpoint type ++ paramString
    type := type
    href := href
    subscribed := false
    secret := hashedSecret
    leaseSeconds := jsOrInt options.leaseSeconds 864000 }

/-- `getIdFromTypeAndParams` (src/persistence.ts). -/
def getIdFromTypeAndParams (type : WebhookType) (searchString : String) : String :=
  webhookTypeEndpoint type ++ searchString

/-! ## In-memory persistence manager (src/persistence.ts)

`MemoryBasedTwitchWebhookPersistenceManager` keeps
`webhooks : Map<WebhookId, WebhookPersistenceObject>`, modelled as an
association list. -/

/-- The value returned by `getWebhookById`, namely
`Object.assign({}, this.webhooks.get(id))`.  `Object.assign` ignores an
`undefined` source and still returns its (then empty) target object, so the
result is always an object: a shallow copy of the stored record when the id
is present, and the empty object `\x7b\x7d` when it is absent. -/
inductive JSObjectResult where
  | obj (record : Option WebhookPersistenceObject)
deriving DecidableEq

/-- `MemoryBasedTwitchWebhookPersistenceManager.getWebhookById`. -/
def memGetWebhookById (store : List (String × WebhookPersistenceObject))
    (id : String) : JSObjectResult :=
  .obj (store.lookup id)

/-- JS truthiness of the value returned by `memGetWebhookById`: every
object, the empty object included, is truthy. -/
def jsTruthyObject : JSObjectResult → Bool
  | .obj _ => true

/-- Reading the `id` property of the returned object: `undefined` on the
empty object. -/
def jsObjectId : JSObjectResult → Option String
  | .obj none => none
  | .obj (some w) => some w.id

/-- `saveWebhook` (also `persistWebhook`, which delegates to it). -/
def memSaveWebhook (store : List (String × WebhookPersistenceObject))
    (w : WebhookPersistenceObject) : List (String × WebhookPersistenceObject) :=
  mapSet store w.id w

/-- `deleteWebhook`. -/
def memDeleteWebhook (store : List (String × WebhookPersistenceObject))
    (id : String) : List (String × WebhookPersistenceObject) :=
  mapDelete store id

/-! ## Timestamp parsing (src/util.ts) -/

/-- Consume one expected literal character. -/
def expectChar (c : Char) : List Char → Option (List Char)
  | x :: r => if x = c then some r else none
  | [] => none

/-- Consume a nonempty run of decimal digits (one regex `(\d+)` group). -/
def expectDigits (cs : List Char) : Option (Nat × List Char) :=
  let ds := cs.takeWhile Char.isDigit
  if ds.isEmpty then none else some (digitsToNat ds, cs.dropWhile Char.isDigit)

/-- Days since 1970-01-01 of the civil date `y-m-d` (`m` is 1-based). -/
def daysFromCivil (y : Int) (m : Nat) (d : Int) : Int :=
  let yAdj := if m ≤ 2 then y - 1 else y
  let era := (if 0 ≤ yAdj then yAdj else yAdj - 399) / 400
  let yoe := yAdj - era * 400
  let doy := (153 * (if 2 < m then (m : Int) - 3 else (m : Int) + 9) + 2) / 5 + d - 1
  let doe := yoe * 365 + yoe / 4 - yoe / 100 + doy
  era * 146097 + doe - 719468

/-- JS `Date.UTC(y, mo, d, h, mi, s, ms)` (with `mo` 0-based and the usual
overflow normalization and the 1900 rule for two-digit years), in epoch ms. -/
def dateUTC (year mo d h mi s ms : Int) : Int :=
  let y := if 0 ≤ year ∧ year ≤ 99 then year + 1900 else year
  let ym := y * 12 + mo
  let yNorm := ym.fdiv 12
  let mNorm := ym.emod 12
  (daysFromCivil yNorm (mNorm.toNat + 1) 1 + (d - 1)) * 86400000 +
    h * 3600000 + mi * 60000 + s * 1000 + ms

/-- `unixTimestampToDate` (src/util.ts): match
`^(\d+)-(\d+)-(\d+)T(\d+):(\d+):(\d+)\.(\d+)Z$` and build
`Date.UTC(year, month - 1, day, hour, minutes, seconds, milliseconds)`. -/
def unixTimestampToDate (timestamp : String) : Option Int := do
  let (year, r1) ← expectDigits timestamp.data
  let r2 ← expectChar '-' r1
  let (month, r3) ← expectDigits r2
  let r4 ← expectChar '-' r3
  let (day, r5) ← expectDigits r4
  let r6 ← expectChar 'T' r5
  let (hour, r7) ← expectDigits r6
  let r8 ← expectChar ':' r7
  let (minutes, r9) ← expectDigits r8
  let r10 ← expectChar ':' r9
  let (seconds, r11) ← expectDigits r10
  let r12 ← expectChar '.' r11
  let (milliseconds, r13) ← expectDigits r12
  let r14 ← expectChar 'Z' r13
  if r14.isEmpty then
    some (dateUTC year ((month : Int) - 1) day hour minutes seconds milliseconds)
  else none

/-! ## Error classification (src/errors.ts) -/

/-- A hub HTTP response as seen by `doHubRequest` / `createErrorFromResponse`.
`rawHeaders` carries the (name, value) pairs of the raw header list;
`bodyFields` is the string-field map of the JSON-parsed response body
(empty when the body does not parse), standing in for `JSON.parse`. -/
structure HubResponse where
  statusCode : Nat
  rawHeaders : List (String × String) := []
  bodyFields : List (String × String) := []
deriving DecidableEq

/-- `val.toLowerCase()` on a header name (character-wise ASCII lowering). -/
def toLowerStr (s : String) : String :=
  String.mk (s.data.map Char.toLower)

/-- The header map built by `createErrorFromResponse`: every key is
lowercased. -/
def lowercasedHeaders (raw : List (String × String)) : List (String × String) :=
  raw.map (fun p => (toLowerStr p.1, p.2))

/-- The classified error hierarchy of src/errors.ts.  Each constructor keeps
the base-class fields (`statusCode` is fixed by the first two). -/
inductive TwitchRequestError where
  | unauthorized (headers : List (String × String)) (message : String)
      (twitchError twitchMessage : Option String) (authenticateError : Option String)
  | rateLimitHit (headers : List (String × String)) (message : String)
      (twitchError twitchMessage : Option String) (refillRate : Option Int) (limitReset : Int)
  | generic (statusCode : Nat) (headers : List (String × String)) (message : String)
      (twitchError twitchMessage : Option String)
deriving DecidableEq

/-- Parse of the `WWW-Authenticate` header value done by the
`UnauthorizedTwitchRequestError` constructor: split on commas, keep the
`lhs=rhs` pairs, strip the outer quote characters of `rhs`, read `error`. -/
def parseAuthenticateError (h : String) : Option String :=
  let entries := (h.splitOn ",").filterMap (fun s =>
    match s.splitOn "=" with
    | [l, r] => some (l.trim, (r.drop 1).dropRight 1)
    | _ => none)
  entries.lookup "error"

/-- `new UnauthorizedTwitchRequestError(headers, bodyJson)`.  The `headers`
argument has lowercased keys, yet the constructor reads
`headers["WWW-Authenticate"]`; that property is never present, so
`authHeader.split` is called on `undefined` and the constructor throws a
`TypeError` (modelled as `.error ()`). -/
def mkUnauthorizedError (headers : List (String × String))
    (body : List (String × String)) : Except Unit TwitchRequestError :=
  match headers.lookup "WWW-Authenticate" with
  | none => .error ()
  | some h =>
    .ok (.unauthorized headers "OAuth token was rejected (after a refresh attempted)."
      (truthyField (body.lookup "error")) (truthyField (body.lookup "message"))
      (truthyField (parseAuthenticateError h)))

/-- `new RateLimitHitTwitchRequestError(headers, bodyJson)`. -/
def mkRateLimitError (headers : List (String × String))
    (body : List (String × String)) : TwitchRequestError :=
  .rateLimitHit headers "Rate limit hit; Wait for bucket to refill to make more requests!"
    (truthyField (body.lookup "error")) (truthyField (body.lookup "message"))
    (match headers.lookup "ratelimit-limit" with
     | some s => parseIntJS s
     | none => none)
    (((headers.lookup "ratelimit-reset").bind unixTimestampToDate).getD 0)

/-- `createErrorFromResponse` (src/errors.ts).  Returns `.ok none` for a 2xx
status (the source returns `undefined`), a classified error otherwise;
`.error ()` models the `TypeError` thrown while constructing the 401 error. -/
def createErrorFromResponse (r : HubResponse) : Except Unit (Option TwitchRequestError) :=
  -- `res.statusCode && Math.floor(res.statusCode / 100) == 2`: a missing or
  -- zero status is falsy, and 0 / 100 ≠ 2 anyway, so Nat division suffices.
  if r.statusCode / 100 = 2 then .ok none
  else
    let headers := lowercasedHeaders r.rawHeaders
    match r.statusCode with
    | 401 => (mkUnauthorizedError headers r.bodyFields).map some
    | 429 => .ok (some (mkRateLimitError headers r.bodyFields))
    | s =>
      .ok (some (.generic s headers
        (jsOrString (r.bodyFields.lookup "message") "Failed to make a twitch request!")
        (truthyField (r.bodyFields.lookup "error"))
        (truthyField (r.bodyFields.lookup "message"))))

/-! ## Hub protocol client (`doHubRequest`, src/webhooks.ts) -/

/-- How a hub request can fail: the `got.HTTPError` thrown by the `got`
client itself on a non-2xx response, a classified error thrown by
`doHubRequest`, the `|| new Error(...)` fallback, or a runtime `TypeError`
escaping the construction of the 401 error. -/
inductive HubFailure where
  | gotHTTPError (statusCode : Nat)
  | hubError (e : TwitchRequestError)
  | unknownError
  | typeError
deriving DecidableEq

/-- The value thrown by `throw createErrorFromResponse(resp, resp.body) ||
new Error(...)`. -/
def classifyThrow (r : HubResponse) : HubFailure :=
  match createErrorFromResponse r with
  | .error _ => .typeError
  | .ok none => .unknownError
  | .ok (some e) => .hubError e

/-- Is the status a 2xx success (`Math.floor(statusCode / 100) === 2`,
guarded by statusCode truthiness, which Nat division subsumes)? -/
def is2xx (r : HubResponse) : Bool :=
  r.statusCode / 100 = 2

instance {ε α : Type} [DecidableEq ε] [DecidableEq α] : DecidableEq (Except ε α)
  | .ok a, .ok b =>
    if h : a = b then .isTrue (by rw [h]) else .isFalse (by intro hc; cases hc; exact h rfl)
  | .ok _, .error _ => .isFalse (by intro hc; cases hc)
  | .error _, .ok _ => .isFalse (by intro hc; cases hc)
  | .error e, .error f =>
    if h : e = f then .isTrue (by rw [h]) else .isFalse (by intro hc; cases hc; exact h rfl)

/-- Observable trace of one `doHubRequest` call: its outcome, how many POST
requests reached the hub, and how many times `refreshOAuthToken` ran. -/
structure HubRequestTrace where
  outcome : Except HubFailure Unit
  requestsSent : Nat
  refreshCalls : Nat
deriving DecidableEq

/-- The result of `await got.post(...)`: the source passes `retry: 0` but
leaves `throwHttpErrors` at its default, so got resolves only for success
(2xx) responses and rejects any other response with `got.HTTPError` before
the caller code sees it.  (Redirect and 304 subtleties do not arise for hub
POST responses and are not modelled.) -/
def gotPost (resp : HubResponse) : Except HubFailure HubResponse :=
  if is2xx resp then .ok resp else .error (.gotHTTPError resp.statusCode)

/-- `doHubRequest` (src/webhooks.ts), parameterized by the response to the
initial POST and the response the hub would give to the (at most one)
retried POST.  Each `await got.post` goes through `gotPost`; since
`throwHttpErrors` is not disabled and there is no try/catch, a non-2xx
first response rejects at the `await` itself, which makes the
`statusCode === 401` refresh-and-retry branch and the
`createErrorFromResponse` classification below it (lines 396-416)
unreachable, although they are embedded here as written. -/
def doHubRequest (resp1 resp2 : HubResponse) : HubRequestTrace :=
  match gotPost resp1 with
  | .error e => { outcome := .error e, requestsSent := 1, refreshCalls := 0 }
  | .ok r1 =>
    if is2xx r1 then
      { outcome := .ok (), requestsSent := 1, refreshCalls := 0 }
    else if r1.statusCode = 401 then
      -- dead code: `gotPost` only ever returns a 2xx response
      match gotPost resp2 with
      | .error e => { outcome := .error e, requestsSent := 2, refreshCalls := 1 }
      | .ok r2 =>
        if is2xx r2 then
          { outcome := .ok (), requestsSent := 2, refreshCalls := 1 }
        else
          { outcome := .error (classifyThrow r2), requestsSent := 2, refreshCalls := 1 }
    else
      { outcome := .error (classifyThrow r1), requestsSent := 1, refreshCalls := 0 }

/-! ## Subscription lifecycle (src/webhooks.ts) -/

/-- State of a manager wired (as by default) to the in-memory persistence
manager, together with the count of hub requests issued. -/
structure ManagerState where
  store : List (String × WebhookPersistenceObject)
  hubRequests : Nat
deriving DecidableEq

/-- `subscribeOrGetSubscription` (src/webhooks.ts) running against the
in-memory persistence manager.  `changeSub` (which always issues exactly one
hub request batch) is counted via `hubRequests`; its own outcome does not
influence the persisted record. -/
def subscribeOrGetSubscription (hmac : String → String → String)
    (managerSecret : String) (type : WebhookType)
    (params : List (String × String)) (options : WebhookOptions)
    (st : ManagerState) : Option String × ManagerState :=
  let webhook := createWebhookPersistenceObject hmac managerSecret type params options
  let oldWebhook := memGetWebhookById st.store webhook.id
  if jsTruthyObject oldWebhook then
    (jsObjectId oldWebhook, st)
  else
    let st1 : ManagerState := { st with store := memSaveWebhook st.store webhook }
    (some webhook.id, { st1 with hubRequests := st1.hubRequests + 1 })

/-- Result of the verification GET handler (src/webhooks.ts, lines 324-372),
from the persistence lookup on: HTTP status, response body, the store after
the handler, the reason carried by an emitted `SubscriptionDeniedError`
(if any), and the id carried by an emitted `subscribed` event (if any). -/
structure VerificationGetResult where
  status : Nat
  body : Option String
  store : List (String × WebhookPersistenceObject)
  deniedReason : Option String
  subscribedEvent : Option String
deriving DecidableEq

/-- The branch condition of the GET handler:
`!originalUrl.searchParams.get("hub.mode") ||
originalUrl.searchParams.get("hub.mode") === "denied"`. -/
def deniedMode (query : List (String × String)) : Bool :=
  !jsTruthyStr (query.lookup "hub.mode") || query.lookup "hub.mode" = some "denied"

/-- The verification GET handler, from the point where the canonical
`webhookId` has been recomputed from `hub.topic` (lines 325-331) onwards.
The persistence lookup is the interface-honest one (`none` for a missing
record); `query` is the search-parameter list of the callback URL, and
`now` the instant of handling.  The registration with the renewal scheduler
(line 365) is modelled separately by `addToScheduler`. -/
def handleVerificationGet (store : List (String × WebhookPersistenceObject))
    (webhookId : String) (query : List (String × String)) (now : Int) :
    VerificationGetResult :=
  match store.lookup webhookId with
  | none =>
    { status := 404, body := none, store := store
      deniedReason := none, subscribedEvent := none }
  | some webhook =>
    if deniedMode query then
      { status := 200, body := none, store := mapDelete store webhookId
        deniedReason := some (if jsTruthyStr (query.lookup "hub.reason")
          then (query.lookup "hub.reason").getD "" else "No reason given")
        subscribedEvent := none }
    else
      let start := now  -- webhook.subscriptionStart = new Date()
      let endTime : Option Int :=
        if jsTruthyStr (query.lookup "hub.lease_seconds") then
          -- start.getTime() + parseInt(hub.lease_seconds) * 1000
          (parseIntJS ((query.lookup "hub.lease_seconds").getD "")).map
            (fun n => start + n * 1000)
        else
          -- Date.now() + webhook.leaseSeconds * 1000 (same instant here)
          some (now + webhook.leaseSeconds * 1000)
      let w' := { webhook with
        subscriptionStart := some start
        subscriptionEnd := endTime
        subscribed := true }
      { status := 200, body := query.lookup "hub.challenge"
        store := mapSet store w'.id w'
        deniedReason := none, subscribedEvent := some webhookId }

/-! ## Renewal scheduler (src/scheduling.ts, `BasicWebhookRenewalScheduler`) -/

/-- Scheduler state: the `webhookURLToTimeout` map (armed one-shot timers,
keyed by webhook id, valued by their delay in ms) plus the queue of
`setImmediate` callbacks, which are never entered into the map. -/
structure SchedulerState where
  webhookURLToTimeout : List (String × Rat) := []
  pendingImmediates : List String := []
deriving DecidableEq

/-- The delay computed by `addToScheduler`:
`((subscriptionEnd.getTime() - subscriptionStart.getTime()) -
(Date.now() - subscriptionStart.getTime())) * 0.85`. -/
def timeToResub (startMs endMs nowMs : Int) : Rat :=
  (((endMs - startMs) - (nowMs - startMs) : Int) : Rat) * (85 / 100 : Rat)

/-- `BasicWebhookRenewalScheduler.addToScheduler`.  The source casts the
optional timestamps with `<Date>`; when either is `undefined` the call to
`.getTime()` throws, modelled as `none`. -/
def addToScheduler (st : SchedulerState) (w : WebhookPersistenceObject)
    (nowMs : Int) : Option SchedulerState :=
  match w.subscriptionStart, w.subscriptionEnd with
  | some startMs, some endMs =>
    let t := timeToResub startMs endMs nowMs
    if t ≤ 0 then
      -- setImmediate(resubHandler): queued, but never put into the map
      some { st with pendingImmediates := st.pendingImmediates ++ [w.id] }
    else
      some { st with webhookURLToTimeout := mapSet st.webhookURLToTimeout w.id t }
  | _, _ => none

/-- `BasicWebhookRenewalScheduler.removeFromScheduler`: `clearTimeout` on
the map entry (a no-op when there is none) and delete it from the map.  The
queued `setImmediate` callbacks are not in the map and are unaffected. -/
def removeFromScheduler (st : SchedulerState) (id : String) : SchedulerState :=
  { st with webhookURLToTimeout := mapDelete st.webhookURLToTimeout id }

/-- A renewal for `id` can still fire after the given scheduler state:
either an armed timer or a queued immediate exists for it. -/
def renewalCanFire (st : SchedulerState) (id : String) : Prop :=
  id ∈ st.pendingImmediates ∨ (st.webhookURLToTimeout.lookup id).isSome

/-! ## Unsubscribe and renewal paths (src/webhooks.ts) -/

/-- Combined manager state for the unsubscribe path: persisted records plus
the renewal scheduler. -/
structure FullState where
  store : List (String × WebhookPersistenceObject)
  sched : SchedulerState
deriving DecidableEq

/-- `resubscribePersistenceObject`: only `changeSub(webhook, true)`, which
performs the hub request and leaves the state untouched. -/
def resubscribePersistenceObject (fs : FullState) (_w : WebhookPersistenceObject)
    (resp1 resp2 : HubResponse) : Except HubFailure Unit × FullState :=
  ((doHubRequest resp1 resp2).outcome, fs)

/-- `unsubscribePersistenceObject`: `await changeSub(webhook, false)` and
only then delete the record and remove it from the renewal scheduler; a
rejected hub request aborts before either mutation. -/
def unsubscribePersistenceObject (fs : FullState) (w : WebhookPersistenceObject)
    (resp1 resp2 : HubResponse) : Except HubFailure Unit × FullState :=
  match (doHubRequest resp1 resp2).outcome with
  | .error e => (.error e, fs)
  | .ok _ =>
    (.ok (), { store := mapDelete fs.store w.id,
               sched := removeFromScheduler fs.sched w.id })

/-! ## Invariants -/

/-- Both timestamps present and ordered (`≤`). -/
def timesOrderedWeak : Option Int → Option Int → Bool
  | some s, some e => s ≤ e
  | _, _ => false

/-- Both timestamps present and strictly ordered (`<`). -/
def timesOrderedStrict : Option Int → Option Int → Bool
  | some s, some e => s < e
  | _, _ => false

/-- The record-level invariant of the spec data model, weakened to `≤`:
a subscribed record carries both timestamps and they are ordered. -/
def subscribedInvariantWeak (w : WebhookPersistenceObject) : Prop :=
  w.subscribed = true → timesOrderedWeak w.subscriptionStart w.subscriptionEnd = true

/-- The record-level invariant exactly as the spec states it
(`subscriptionEnd > subscriptionStart`). -/
def subscribedInvariantStrict (w : WebhookPersistenceObject) : Prop :=
  w.subscribed = true → timesOrderedStrict w.subscriptionStart w.subscriptionEnd = true

/-- The `hub.lease_seconds` query parameter, when present, parses to a
nonnegative integer (what a protocol-conformant hub sends). -/
def leaseParamOkB (query : List (String × String)) : Bool :=
  match query.lookup "hub.lease_seconds" with
  | some s =>
    match parseIntJS s with
    | some n => 0 ≤ n
    | none => false
  | none => true

/-- Propositional form of `leaseParamOkB`. -/
def leaseParamOk (query : List (String × String)) : Prop :=
  leaseParamOkB query = true

instance (w : WebhookPersistenceObject) : Decidable (subscribedInvariantWeak w) := by
  unfold subscribedInvariantWeak; infer_instance

instance (w : WebhookPersistenceObject) : Decidable (subscribedInvariantStrict w) := by
  unfold subscribedInvariantStrict; infer_instance

instance (q : List (String × String)) : Decidable (leaseParamOk q) := by
  unfold leaseParamOk; infer_instance

/-! ## Concrete fixtures used by witnesses and counterexamples -/

/-- A pending record as produced for a user-follows subscription. -/
def sampleWebhook : WebhookPersistenceObject :=
  { id := "follows?first=1&to_id=1"
    type := .userFollows
    href := "https://api.twitch.tv/helix/users/follows?first=1&to_id=1"
    subscribed := false
    secret := "sec"
    leaseSeconds := 864000 }

/-- A verified record: start 0 ms, end 1000000 ms. -/
def verifiedWebhook : WebhookPersistenceObject :=
  { sampleWebhook with
    subscribed := true, subscriptionStart := some 0, subscriptionEnd := some 1000000 }

/-- A verified record whose lease has already expired. -/
def dueWebhook : WebhookPersistenceObject :=
  { sampleWebhook with
    subscribed := true, subscriptionStart := some 0, subscriptionEnd := some 1000 }

/-! ## Helper lemmas -/

theorem lookup_pair_cons {β : Type} (k ka : String) (va : β) (t : List (String × β)) :
    ((ka, va) :: t).lookup k = if k == ka then some va else t.lookup k := by
  cases h : k == ka <;> simp [List.lookup, h]

theorem lookup_eq_of_perm {β : Type} {l₁ l₂ : List (String × β)} (h : l₁.Perm l₂) :
    ∀ (_ : (l₁.map Prod.fst).Nodup) (k : String), l₁.lookup k = l₂.lookup k := by
  induction h with
  | nil => intro _ _; rfl
  | cons a h ih =>
    intro nd k
    obtain ⟨ka, va⟩ := a
    simp only [List.map_cons, List.nodup_cons] at nd
    rw [lookup_pair_cons, lookup_pair_cons]
    cases hk : k == ka
    · simpa [hk] using ih nd.2 k
    · simp [hk]
  | swap x y l =>
    intro nd k
    obtain ⟨kx, vx⟩ := x
    obtain ⟨ky, vy⟩ := y
    simp only [List.map_cons, List.nodup_cons, List.mem_cons] at nd
    have hxy : ky ≠ kx := fun hc => nd.1 (Or.inl hc)
    rw [lookup_pair_cons, lookup_pair_cons, lookup_pair_cons, lookup_pair_cons]
    cases hky : k == ky <;> cases hkx : k == kx <;> simp [hky, hkx]
    exact absurd ((beq_iff_eq.mp hky).symm.trans (beq_iff_eq.mp hkx)) hxy
  | trans h₁ h₂ ih₁ ih₂ =>
    intro nd k
    exact (ih₁ nd k).trans (ih₂ ((h₁.map Prod.fst).nodup_iff.mp nd) k)

theorem foldl_paramStep_congr (p₁ p₂ : List (String × String))
    (hlk : ∀ k, p₁.lookup k = p₂.lookup k) :
    ∀ (names : List String) (st : Bool × String),
      names.foldl (paramStep p₁) st = names.foldl (paramStep p₂) st := by
  intro names
  induction names with
  | nil => intro _; rfl
  | cons n t ih =>
    intro st
    simp only [List.foldl_cons]
    rw [show paramStep p₁ st n = paramStep p₂ st n from by unfold paramStep; rw [hlk n]]
    exact ih _

theorem computeTopicParamString_eq_of_perm {p₁ p₂ : List (String × String)}
    (nd : (p₁.map Prod.fst).Nodup) (h : p₁.Perm p₂) :
    computeTopicParamString p₁ = computeTopicParamString p₂ := by
  have hkeys : (p₁.map Prod.fst).mergeSort = (p₂.map Prod.fst).mergeSort := by
    apply List.eq_of_perm_of_sorted (r := (· ≤ ·))
    · exact ((p₁.map Prod.fst).mergeSort_perm _).trans
        ((h.map Prod.fst).trans ((p₂.map Prod.fst).mergeSort_perm _).symm)
    · exact List.sorted_mergeSort' _
    · exact List.sorted_mergeSort' _
  unfold computeTopicParamString
  rw [hkeys]
  exact congrArg Prod.snd
    (foldl_paramStep_congr p₁ p₂ (lookup_eq_of_perm h nd)
      ((p₂.map Prod.fst).mergeSort) (true, ""))

theorem mem_of_lookup_eq_some {β : Type} :
    ∀ {l : List (String × β)} {k : String} {v : β},
      l.lookup k = some v → (k, v) ∈ l := by
  intro l
  induction l with
  | nil => intro k v h; simp [List.lookup] at h
  | cons p t ih =>
    intro k v h
    obtain ⟨kp, vp⟩ := p
    rw [lookup_pair_cons] at h
    cases hk : k == kp
    · rw [hk, if_neg (by simp)] at h
      exact .tail _ (ih h)
    · rw [hk, if_pos rfl] at h
      cases h
      rw [beq_iff_eq.mp hk]
      exact .head _

theorem mem_mapSet {β : Type} {k : String} {v : β} :
    ∀ {l : List (String × β)} {p : String × β},
      p ∈ mapSet l k v → p = (k, v) ∨ p ∈ l := by
  intro l
  induction l with
  | nil =>
    intro p hp
    unfold mapSet at hp
    exact Or.inl (List.mem_singleton.mp hp)
  | cons q t ih =>
    intro p hp
    unfold mapSet at hp
    by_cases hq : q.1 = k
    · rw [if_pos hq] at hp
      rcases List.mem_cons.mp hp with h | h
      · exact Or.inl h
      · exact Or.inr (.tail _ h)
    · rw [if_neg hq] at hp
      rcases List.mem_cons.mp hp with h | h
      · exact Or.inr (h ▸ .head _)
      · rcases ih h with h' | h'
        · exact Or.inl h'
        · exact Or.inr (.tail _ h')

theorem mem_mapDelete {β : Type} {k : String} :
    ∀ {l : List (String × β)} {p : String × β}, p ∈ mapDelete l k → p ∈ l := by
  intro l
  induction l with
  | nil => intro p hp; simp [mapDelete] at hp
  | cons q t ih =>
    intro p hp
    unfold mapDelete at hp
    by_cases hq : q.1 = k
    · rw [if_pos hq] at hp
      exact .tail _ hp
    · rw [if_neg hq] at hp
      rcases List.mem_cons.mp hp with h | h
      · exact h ▸ .head _
      · exact .tail _ (ih h)

theorem handleVerificationGet_none_eq (store : List (String × WebhookPersistenceObject))
    (wid : String) (query : List (String × String)) (now : Int)
    (hl : store.lookup wid = none) :
    handleVerificationGet store wid query now =
      { status := 404, body := none, store := store
        deniedReason := none, subscribedEvent := none } := by
  unfold handleVerificationGet
  rw [hl]

theorem handleVerificationGet_denied_eq (store : List (String × WebhookPersistenceObject))
    (wid : String) (query : List (String × String)) (now : Int)
    (w : WebhookPersistenceObject) (hl : store.lookup wid = some w)
    (hdm : deniedMode query = true) :
    handleVerificationGet store wid query now =
      { status := 200, body := none, store := mapDelete store wid
        deniedReason := some (if jsTruthyStr (query.lookup "hub.reason")
          then (query.lookup "hub.reason").getD "" else "No reason given")
        subscribedEvent := none } := by
  unfold handleVerificationGet
  rw [hl]
  simp only [hdm, if_true]

theorem handleVerificationGet_granted_eq (store : List (String × WebhookPersistenceObject))
    (wid : String) (query : List (String × String)) (now : Int)
    (w : WebhookPersistenceObject) (hl : store.lookup wid = some w)
    (hdm : deniedMode query = false) :
    handleVerificationGet store wid query now =
      { status := 200, body := query.lookup "hub.challenge"
        store := mapSet store w.id
          { w with
            subscriptionStart := some now
            subscriptionEnd :=
              if jsTruthyStr (query.lookup "hub.lease_seconds") then
                (parseIntJS ((query.lookup "hub.lease_seconds").getD "")).map
                  (fun n => now + n * 1000)
              else some (now + w.leaseSeconds * 1000)
            subscribed := true }
        deniedReason := none, subscribedEvent := some wid } := by
  unfold handleVerificationGet
  rw [hl]
  simp only [hdm, if_false, Bool.false_eq_true]

/-! ## Claims -/

/-- C1: for every topic type and for all parameter maps that contain the same
set of (name, value) pairs but were built in different insertion orders, the
computed canonical subscription id (endpoint segment plus sorted, URL-encoded
query string) is identical. -/
theorem subscriptionId_orderIndependent (hmac : String → String → String)
    (managerSecret : String) (type : WebhookType) (options : WebhookOptions)
    {p₁ p₂ : List (String × String)} (nd : (p₁.map Prod.fst).Nodup)
    (h : p₁.Perm p₂) :
    (createWebhookPersistenceObject hmac managerSecret type p₁ options).id =
      (createWebhookPersistenceObject hmac managerSecret type p₂ options).id := by
  have hps := computeTopicParamString_eq_of_perm nd h
  simp [createWebhookPersistenceObject, hps]

/-- Witness for C1 at a concrete pair of param maps in different orders. -/
theorem subscriptionId_orderIndependent_witness :
    ([(("to_id" : String), ("1" : String)), ("first", "1")].map Prod.fst).Nodup ∧
    [(("to_id" : String), ("1" : String)), ("first", "1")].Perm
      [("first", "1"), ("to_id", "1")] ∧
    (createWebhookPersistenceObject (fun _ _ => "") "s" .userFollows
        [("to_id", "1"), ("first", "1")] {}).id =
      (createWebhookPersistenceObject (fun _ _ => "") "s" .userFollows
        [("first", "1"), ("to_id", "1")] {}).id :=
  ⟨by decide, by decide,
    subscriptionId_orderIndependent (fun _ _ => "") "s" .userFollows {}
      (by decide) (by decide)⟩

/-- C2 (code evaluation at the failing input): with the default in-memory
persistence manager, `getWebhookById` returns a truthy empty object for an
id that was never persisted, so even the FIRST subscribe call takes the
already-subscribed branch: it returns `undefined`, persists nothing, and
sends no hub request, and the repeated call behaves identically.  The
intended idempotence (first call subscribes once, both calls return the
id) never happens. -/
theorem subscribeTwice_never_subscribes :
    subscribeOrGetSubscription (fun _ _ => "") "s" .userFollows
        [("first", "1"), ("to_id", "1")] {} ⟨[], 0⟩ = (none, ⟨[], 0⟩) ∧
    (subscribeOrGetSubscription (fun _ _ => "") "s" .userFollows
        [("first", "1"), ("to_id", "1")] {}
        (subscribeOrGetSubscription (fun _ _ => "") "s" .userFollows
          [("first", "1"), ("to_id", "1")] {} ⟨[], 0⟩).2).2.hubRequests = 0 := by
  exact ⟨rfl, rfl⟩

/-- C3 (code evaluation at the failing input): for an id with no persisted
record, `getWebhookById` returns `Object.assign(\x7b\x7d, undefined)`, the
empty object, which is truthy, so the existence checks of every caller
treat it as an existing record (its `id` property is `undefined`).  For a
persisted id the returned copy equals the stored record. -/
theorem getWebhookById_missing_truthy :
    memGetWebhookById [] "follows?first=1&to_id=1" = .obj none ∧
    jsTruthyObject (memGetWebhookById [] "follows?first=1&to_id=1") = true ∧
    jsObjectId (memGetWebhookById [] "follows?first=1&to_id=1") = none ∧
    memGetWebhookById [(sampleWebhook.id, sampleWebhook)] sampleWebhook.id =
      .obj (some sampleWebhook) := by
  exact ⟨rfl, rfl, rfl, rfl⟩

/-- C6 (code evaluation at the failing input): an HTTP 401 first response
never reaches the refresh-and-retry code: `got.post` is called with its
default `throwHttpErrors` and no try/catch, so the `await` rejects with
`got.HTTPError` at once — exactly one request is sent, the refresh callback
is never invoked, and no classified `HubError` is produced, even though a
retry would have succeeded (second response 200).  A 2xx first response does
succeed with a single request and no refresh. -/
theorem doHubRequest_401_rejects_without_retry :
    doHubRequest
        { statusCode := 401,
          rawHeaders := [("WWW-Authenticate", "Bearer error=\"invalid_token\"")] }
        { statusCode := 200 } =
      { outcome := .error (.gotHTTPError 401), requestsSent := 1, refreshCalls := 0 } ∧
    doHubRequest { statusCode := 200 } { statusCode := 200 } =
      { outcome := .ok (), requestsSent := 1, refreshCalls := 0 } := by
  exact ⟨by decide, by decide⟩

/-- C8 (code evaluation at the failing input): when the record is already
due at schedule time, the renewal is queued as a `setImmediate` callback
that is never entered into `webhookURLToTimeout`, so calling
`removeFromScheduler` before it has run does not remove it and the renewal
still fires. -/
theorem removeFromScheduler_immediate_still_fires :
    addToScheduler ⟨[], []⟩ dueWebhook 2000 = some ⟨[], [dueWebhook.id]⟩ ∧
    removeFromScheduler ⟨[], [dueWebhook.id]⟩ dueWebhook.id = ⟨[], [dueWebhook.id]⟩ ∧
    renewalCanFire (removeFromScheduler ⟨[], [dueWebhook.id]⟩ dueWebhook.id)
      dueWebhook.id := by
  have ht : timeToResub 0 1000 2000 ≤ 0 := by unfold timeToResub; norm_num
  refine ⟨?_, by decide, Or.inl (List.mem_singleton.mpr rfl)⟩
  unfold addToScheduler
  simp only [dueWebhook, sampleWebhook]
  rw [if_pos ht]
  rfl

/-- C7 counterexample: scheduling a verified record with
subscriptionStart = 0 ms and subscriptionEnd = 1000000 ms at now = 200000 ms
arms a timer for 680000 ms = 0.85 * ((end - start) - elapsed), while the
claimed formula 0.85 * (end - start) - elapsed gives 650000 ms. -/
theorem addToScheduler_delay_counterexample :
    addToScheduler ⟨[], []⟩ verifiedWebhook 200000 =
      some ⟨[(verifiedWebhook.id, (680000 : Rat))], []⟩ ∧
    ((85 : Rat) / 100) * (1000000 - 0) - 200000 = (650000 : Rat) ∧
    (680000 : Rat) ≠ (650000 : Rat) := by
  have ht : timeToResub 0 1000000 200000 = 680000 := by unfold timeToResub; norm_num
  refine ⟨?_, by norm_num, by norm_num⟩
  unfold addToScheduler
  simp only [verifiedWebhook, sampleWebhook]
  rw [if_neg (by rw [ht]; norm_num), ht]
  rfl

/-- C7 (amended): for a verified record the computed delay equals
0.85 * ((subscriptionEnd - subscriptionStart) - elapsed-since-start), that
is 0.85 * (subscriptionEnd - now); when the delay is ≤ 0 the renewal is
queued for the next scheduling opportunity (a `setImmediate`, not run
synchronously, and not tracked in the timer map), and otherwise a one-shot
timer is armed for exactly that delay. -/
theorem addToScheduler_spec (st : SchedulerState) (w : WebhookPersistenceObject)
    (now s e : Int) (hs : w.subscriptionStart = some s)
    (he : w.subscriptionEnd = some e) :
    timeToResub s e now = ((85 : Rat) / 100) * (((e - s) - (now - s) : Int) : Rat) ∧
    timeToResub s e now = ((85 : Rat) / 100) * ((e - now : Int) : Rat) ∧
    (timeToResub s e now ≤ 0 →
      addToScheduler st w now =
        some { st with pendingImmediates := st.pendingImmediates ++ [w.id] }) ∧
    (0 < timeToResub s e now →
      addToScheduler st w now =
        some { st with
               webhookURLToTimeout :=
                 mapSet st.webhookURLToTimeout w.id (timeToResub s e now) }) := by
  refine ⟨?_, ?_, ?_, ?_⟩
  · unfold timeToResub; ring
  · unfold timeToResub; push_cast; ring
  · intro ht
    simp only [addToScheduler, hs, he]
    rw [if_pos ht]
  · intro ht
    simp only [addToScheduler, hs, he]
    rw [if_neg (by exact absurd · (not_le.mpr ht))]

/-- Witness for C7 (amended) at the verified record and now = 200000 ms. -/
theorem addToScheduler_spec_witness :
    timeToResub 0 1000000 200000 =
      ((85 : Rat) / 100) * ((1000000 - 200000 : Int) : Rat) ∧
    addToScheduler ⟨[], []⟩ verifiedWebhook 200000 =
      some ⟨[(verifiedWebhook.id, timeToResub 0 1000000 200000)], []⟩ := by
  have h := addToScheduler_spec ⟨[], []⟩ verifiedWebhook 200000 0 1000000 rfl rfl
  have hpos : (0 : Rat) < timeToResub 0 1000000 200000 := by
    unfold timeToResub; norm_num
  exact ⟨h.2.1, (h.2.2.2 hpos).trans rfl⟩

/-- C10: `unsubscribePersistenceObject` awaits the hub request before doing
anything else; when the hub request fails, the persisted store and the
renewal scheduler are left unchanged, and deletion plus scheduler removal
happen only after the hub request succeeds. -/
theorem unsubscribePersistenceObject_spec (fs : FullState)
    (w : WebhookPersistenceObject) (resp1 resp2 : HubResponse) :
    (∀ e, (doHubRequest resp1 resp2).outcome = .error e →
      unsubscribePersistenceObject fs w resp1 resp2 = (.error e, fs)) ∧
    ((doHubRequest resp1 resp2).outcome = .ok () →
      unsubscribePersistenceObject fs w resp1 resp2 =
        (.ok (), { store := mapDelete fs.store w.id,
                   sched := removeFromScheduler fs.sched w.id })) := by
  constructor
  · intro e he; unfold unsubscribePersistenceObject; rw [he]
  · intro h; unfold unsubscribePersistenceObject; rw [h]

/-- C5 counterexample: a denied verification callback without `hub.reason`
emits the reason string "No reason given", not "no reason given" as
claimed. -/
theorem deniedReason_counterexample :
    (handleVerificationGet [(sampleWebhook.id, sampleWebhook)] sampleWebhook.id
        [("hub.mode", "denied")] 0).deniedReason ≠ some "no reason given" ∧
    (handleVerificationGet [(sampleWebhook.id, sampleWebhook)] sampleWebhook.id
        [("hub.mode", "denied")] 0).deniedReason = some "No reason given" :=
  ⟨by decide, by decide⟩

/-- C5 (amended): for every known record receiving a verification callback
whose hub.mode is missing (or empty) or equals "denied", the handler deletes
the record from persistence and changes nothing else in the store, responds
with an empty body, and emits a subscription-denied error carrying the
hub-supplied hub.reason when that parameter is present and nonempty, and
otherwise the string "No reason given". -/
theorem handleVerificationGet_denied (store : List (String × WebhookPersistenceObject))
    (wid : String) (query : List (String × String)) (now : Int)
    (w : WebhookPersistenceObject) (hw : store.lookup wid = some w)
    (hmode : jsTruthyStr (query.lookup "hub.mode") = false ∨
      query.lookup "hub.mode" = some "denied") :
    (handleVerificationGet store wid query now).status = 200 ∧
    (handleVerificationGet store wid query now).body = none ∧
    (handleVerificationGet store wid query now).store = mapDelete store wid ∧
    (handleVerificationGet store wid query now).subscribedEvent = none ∧
    (∀ s, query.lookup "hub.reason" = some s → s ≠ "" →
      (handleVerificationGet store wid query now).deniedReason = some s) ∧
    (jsTruthyStr (query.lookup "hub.reason") = false →
      (handleVerificationGet store wid query now).deniedReason =
        some "No reason given") := by
  have hdm : deniedMode query = true := by
    rcases hmode with hm | hm <;> simp [deniedMode, hm]
  have hr := handleVerificationGet_denied_eq store wid query now w hw hdm
  rw [hr]
  refine ⟨rfl, rfl, rfl, rfl, ?_, ?_⟩
  · intro s hs hsne
    simp [hs, jsTruthyStr, hsne]
  · intro htr
    simp [htr]

/-- Witness for C5 (amended): concrete denied callback with a reason. -/
theorem handleVerificationGet_denied_witness :
    (handleVerificationGet [(sampleWebhook.id, sampleWebhook)] sampleWebhook.id
        [("hub.mode", "denied"), ("hub.reason", "unauthorized")] 0).store = [] ∧
    (handleVerificationGet [(sampleWebhook.id, sampleWebhook)] sampleWebhook.id
        [("hub.mode", "denied"), ("hub.reason", "unauthorized")] 0).deniedReason =
      some "unauthorized" := by
  have h := handleVerificationGet_denied [(sampleWebhook.id, sampleWebhook)]
    sampleWebhook.id [("hub.mode", "denied"), ("hub.reason", "unauthorized")] 0
    sampleWebhook (by decide) (Or.inr (by decide))
  exact ⟨h.2.2.1.trans (by decide), h.2.2.2.2.1 "unauthorized" (by decide) (by decide)⟩

/-- C4: for every pending record receiving a granted verification callback
(hub.mode present, nonempty, and not "denied"), the handler sets
subscriptionStart to the current time, sets subscriptionEnd to
subscriptionStart plus the hub-provided hub.lease_seconds (in seconds) when
that parameter is present (and parses), and otherwise plus the originally
requested leaseSeconds, sets subscribed to true, persists the record, and
responds 200 with exactly the hub.challenge value as the body. -/
theorem handleVerificationGet_granted (store : List (String × WebhookPersistenceObject))
    (wid : String) (query : List (String × String)) (now : Int)
    (w : WebhookPersistenceObject) (hw : store.lookup wid = some w)
    (hmode : jsTruthyStr (query.lookup "hub.mode") = true)
    (hnden : query.lookup "hub.mode" ≠ some "denied") :
    (handleVerificationGet store wid query now).status = 200 ∧
    (handleVerificationGet store wid query now).body =
      query.lookup "hub.challenge" ∧
    (handleVerificationGet store wid query now).subscribedEvent = some wid ∧
    (∀ s n, query.lookup "hub.lease_seconds" = some s → parseIntJS s = some n →
      (handleVerificationGet store wid query now).store = mapSet store w.id
        { w with
          subscriptionStart := some now
          subscriptionEnd := some (now + n * 1000)
          subscribed := true }) ∧
    (query.lookup "hub.lease_seconds" = none →
      (handleVerificationGet store wid query now).store = mapSet store w.id
        { w with
          subscriptionStart := some now
          subscriptionEnd := some (now + w.leaseSeconds * 1000)
          subscribed := true }) := by
  have hdm : deniedMode query = false := by
    simp [deniedMode, hmode, hnden]
  have hr := handleVerificationGet_granted_eq store wid query now w hw hdm
  rw [hr]
  refine ⟨rfl, rfl, rfl, ?_, ?_⟩
  · intro s n hs hp
    have hsne : s ≠ "" := by
      intro he
      rw [he] at hp
      rw [show parseIntJS "" = none from rfl] at hp
      exact Option.noConfusion hp
    simp [hs, jsTruthyStr, hsne, hp]
  · intro hnone
    simp [hnone, jsTruthyStr]

/-- Witness for C4 at a concrete granted callback with lease 300 s. -/
theorem handleVerificationGet_granted_witness :
    (handleVerificationGet [(sampleWebhook.id, sampleWebhook)] sampleWebhook.id
        [("hub.mode", "subscribe"), ("hub.lease_seconds", "300"),
         ("hub.challenge", "abc123")] 0).status = 200 ∧
    (handleVerificationGet [(sampleWebhook.id, sampleWebhook)] sampleWebhook.id
        [("hub.mode", "subscribe"), ("hub.lease_seconds", "300"),
         ("hub.challenge", "abc123")] 0).body = some "abc123" ∧
    (handleVerificationGet [(sampleWebhook.id, sampleWebhook)] sampleWebhook.id
        [("hub.mode", "subscribe"), ("hub.lease_seconds", "300"),
         ("hub.challenge", "abc123")] 0).store =
      [(sampleWebhook.id,
        { sampleWebhook with
          subscriptionStart := some 0
          subscriptionEnd := some 300000
          subscribed := true })] := by
  have h := handleVerificationGet_granted [(sampleWebhook.id, sampleWebhook)]
    sampleWebhook.id
    [("hub.mode", "subscribe"), ("hub.lease_seconds", "300"), ("hub.challenge", "abc123")]
    0 sampleWebhook (by decide) (by decide) (by decide)
  refine ⟨h.1, h.2.1.trans (by decide), ?_⟩
  exact (h.2.2.2.1 "300" 300 (by decide) (by decide)).trans (by decide)

/-- C9 counterexample: a granted verification callback carrying
hub.lease_seconds = 0 stores a subscribed record whose subscriptionEnd
equals its subscriptionStart, violating the claimed strict invariant. -/
theorem subscribedInvariant_counterexample :
    (handleVerificationGet [(sampleWebhook.id, sampleWebhook)] sampleWebhook.id
        [("hub.mode", "subscribe"), ("hub.lease_seconds", "0"),
         ("hub.challenge", "abc")] 0).store =
      [(sampleWebhook.id,
        { sampleWebhook with
          subscriptionStart := some 0, subscriptionEnd := some 0,
          subscribed := true })] ∧
    ¬ subscribedInvariantStrict
      { sampleWebhook with
        subscriptionStart := some 0, subscriptionEnd := some 0,
        subscribed := true } :=
  ⟨by decide, by decide⟩

/-- C9 (amended): a subscribed record always carries both timestamps with
subscriptionEnd ≥ subscriptionStart (equality exactly when the effective
lease is 0); the invariant holds of record creation (which creates the
record unsubscribed) and is preserved by the verification callback
(for hub leases that parse to a nonnegative number, and records with
nonnegative requested leases), by renewal (which leaves the store
untouched), and by unsubscribe (which only ever deletes the record). -/
theorem subscribedInvariant_preserved :
    (∀ (hmac : String → String → String) (ms : String) (t : WebhookType)
        (p : List (String × String)) (o : WebhookOptions),
      subscribedInvariantWeak (createWebhookPersistenceObject hmac ms t p o)) ∧
    (∀ (store : List (String × WebhookPersistenceObject)) (wid : String)
        (query : List (String × String)) (now : Int),
      (∀ p ∈ store, subscribedInvariantWeak p.2 ∧ 0 ≤ p.2.leaseSeconds) →
      leaseParamOk query →
      ∀ p' ∈ (handleVerificationGet store wid query now).store,
        subscribedInvariantWeak p'.2) ∧
    (∀ (fs : FullState) (w : WebhookPersistenceObject) (r1 r2 : HubResponse),
      ((resubscribePersistenceObject fs w r1 r2).2).store = fs.store) ∧
    (∀ (fs : FullState) (w : WebhookPersistenceObject) (r1 r2 : HubResponse),
      (∀ p ∈ fs.store, subscribedInvariantWeak p.2) →
      ∀ p' ∈ ((unsubscribePersistenceObject fs w r1 r2).2).store,
        subscribedInvariantWeak p'.2) := by
  refine ⟨?_, ?_, ?_, ?_⟩
  · intro hmac ms t p o h
    simp [createWebhookPersistenceObject] at h
  · intro store wid query now hstore hlease p' hp'
    cases hl : store.lookup wid with
    | none =>
      rw [handleVerificationGet_none_eq store wid query now hl] at hp'
      exact (hstore p' hp').1
    | some w =>
      cases hdm : deniedMode query with
      | true =>
        rw [handleVerificationGet_denied_eq store wid query now w hl hdm] at hp'
        exact (hstore p' (mem_mapDelete hp')).1
      | false =>
        rw [handleVerificationGet_granted_eq store wid query now w hl hdm] at hp'
        rcases mem_mapSet hp' with h | h
        · rw [h]
          intro _
          have hwlease : 0 ≤ w.leaseSeconds :=
            (hstore (wid, w) (mem_of_lookup_eq_some hl)).2
          cases hq : query.lookup "hub.lease_seconds" with
          | none =>
            simp [hq, jsTruthyStr, timesOrderedWeak]
            omega
          | some s =>
            by_cases hse : s = ""
            · subst hse
              simp [hq, jsTruthyStr, timesOrderedWeak]
              omega
            · have hlease' : (match parseIntJS s with
                  | some n => decide (0 ≤ n)
                  | none => false) = true := by
                have hx := hlease
                unfold leaseParamOk leaseParamOkB at hx
                rw [hq] at hx
                exact hx
              cases hps : parseIntJS s with
              | none =>
                rw [hps] at hlease'
                exact absurd hlease' (by simp)
              | some n =>
                rw [hps] at hlease'
                have hn : (0 : Int) ≤ n := of_decide_eq_true hlease'
                simp [hq, jsTruthyStr, hse, hps, timesOrderedWeak]
                omega
        · exact (hstore p' h).1
  · intro fs w r1 r2
    rfl
  · intro fs w r1 r2 hstore p' hp'
    unfold unsubscribePersistenceObject at hp'
    cases h : (doHubRequest r1 r2).outcome with
    | error e =>
      rw [h] at hp'
      exact hstore p' hp'
    | ok u =>
      rw [h] at hp'
      exact hstore p' (mem_mapDelete hp')

/-- Witness for C9 (amended): the invariant holds of a freshly created
record and of the record stored by a concrete granted callback. -/
theorem subscribedInvariant_preserved_witness :
    subscribedInvariantWeak
      (createWebhookPersistenceObject (fun _ _ => "") "s" .userFollows [] {}) ∧
    subscribedInvariantWeak
      { sampleWebhook with
        subscriptionStart := some 0, subscriptionEnd := some 300000,
        subscribed := true } := by
  refine ⟨subscribedInvariant_preserved.1 (fun _ _ => "") "s" .userFollows [] {}, ?_⟩
  have h := subscribedInvariant_preserved.2.1 [(sampleWebhook.id, sampleWebhook)]
    sampleWebhook.id
    [("hub.mode", "subscribe"), ("hub.lease_seconds", "300"), ("hub.challenge", "abc")]
    0 (by decide) (by decide)
    (sampleWebhook.id,
      { sampleWebhook with
        subscriptionStart := some 0, subscriptionEnd := some 300000,
        subscribed := true })
    (by decide)
  exact h

/-- Witness for C10: a hub request answered 500 (which rejects as a
`got.HTTPError` at the `await`) leaves the state unchanged. -/
theorem unsubscribePersistenceObject_witness :
    unsubscribePersistenceObject ⟨[(sampleWebhook.id, sampleWebhook)], ⟨[], []⟩⟩
        sampleWebhook { statusCode := 500 } { statusCode := 200 } =
      (.error (.gotHTTPError 500),
        ⟨[(sampleWebhook.id, sampleWebhook)], ⟨[], []⟩⟩) :=
  (unsubscribePersistenceObject_spec ⟨[(sampleWebhook.id, sampleWebhook)], ⟨[], []⟩⟩
    sampleWebhook { statusCode := 500 } { statusCode := 200 }).1 _ (by decide)

end TwitchWebhooks
